import Mathlib

/-!
Shallow embedding of the `navign` robot vision core
(`src/robot/vision`): the coordinate-transform geometry
(`coordinate_transform.cpp`), the AprilTag pose-estimation wrapper
(`apriltag_detector.cpp`), the service lifecycle and processing loop
(`vision_service.cpp`), and the CLI argument parsing (`main.cpp`).

The C++ code computes with IEEE doubles; the embedding idealizes doubles
as exact rationals (ℚ).  Machine counters (`uint32_t`) are modelled as ℕ
reduced mod 2^32 at each write, and C++ `int` division as `Int.tdiv`
(truncation toward zero).  External collaborators (OpenCV, the apriltag C
library, libc) enter as explicit function parameters or, where the spec
pins down their behavior, as definitions marked `Modelled from the spec`.
-/

/-- Model of `cv::Point2f` / `cv::Point2d`: a 2-D point with exact-rational coordinates. -/
structure Pt2 where
  x : ℚ
  y : ℚ
deriving DecidableEq, Repr

/-- Model of `cv::Point3d`: a 3-D point with exact-rational coordinates. -/
structure Pt3 where
  x : ℚ
  y : ℚ
  z : ℚ
deriving DecidableEq, Repr

def Pt3.add (a b : Pt3) : Pt3 := ⟨a.x + b.x, a.y + b.y, a.z + b.z⟩

def Pt3.sub (a b : Pt3) : Pt3 := ⟨a.x - b.x, a.y - b.y, a.z - b.z⟩

def Pt3.neg (a : Pt3) : Pt3 := ⟨-a.x, -a.y, -a.z⟩

/-- Model of `cv::Point3d::dot`. -/
def Pt3.dot (a b : Pt3) : ℚ := a.x * b.x + a.y * b.y + a.z * b.z

/-- Square of the Euclidean norm (`cv::norm(v)^2`), rational-valued. -/
def Pt3.normSq (a : Pt3) : ℚ := a.x ^ 2 + a.y ^ 2 + a.z ^ 2

/-- A 3x3 matrix of exact rationals (`cv::Mat` of CV_64F, 3x3),
entry `aij` = row i, column j (`mat.at<double>(i, j)`). -/
structure Mat3 where
  a00 : ℚ
  a01 : ℚ
  a02 : ℚ
  a10 : ℚ
  a11 : ℚ
  a12 : ℚ
  a20 : ℚ
  a21 : ℚ
  a22 : ℚ
deriving DecidableEq, Repr

def Mat3.mulVec (m : Mat3) (v : Pt3) : Pt3 :=
  ⟨m.a00 * v.x + m.a01 * v.y + m.a02 * v.z,
   m.a10 * v.x + m.a11 * v.y + m.a12 * v.z,
   m.a20 * v.x + m.a21 * v.y + m.a22 * v.z⟩

def Mat3.transpose (m : Mat3) : Mat3 :=
  ⟨m.a00, m.a10, m.a20, m.a01, m.a11, m.a21, m.a02, m.a12, m.a22⟩

def Mat3.mul (m n : Mat3) : Mat3 :=
  ⟨m.a00 * n.a00 + m.a01 * n.a10 + m.a02 * n.a20,
   m.a00 * n.a01 + m.a01 * n.a11 + m.a02 * n.a21,
   m.a00 * n.a02 + m.a01 * n.a12 + m.a02 * n.a22,
   m.a10 * n.a00 + m.a11 * n.a10 + m.a12 * n.a20,
   m.a10 * n.a01 + m.a11 * n.a11 + m.a12 * n.a21,
   m.a10 * n.a02 + m.a11 * n.a12 + m.a12 * n.a22,
   m.a20 * n.a00 + m.a21 * n.a10 + m.a22 * n.a20,
   m.a20 * n.a01 + m.a21 * n.a11 + m.a22 * n.a21,
   m.a20 * n.a02 + m.a21 * n.a12 + m.a22 * n.a22⟩

def Mat3.identity : Mat3 := ⟨1, 0, 0, 0, 1, 0, 0, 0, 1⟩

def Mat3.sub (m n : Mat3) : Mat3 :=
  ⟨m.a00 - n.a00, m.a01 - n.a01, m.a02 - n.a02,
   m.a10 - n.a10, m.a11 - n.a11, m.a12 - n.a12,
   m.a20 - n.a20, m.a21 - n.a21, m.a22 - n.a22⟩

/-- Squared Frobenius norm, used to measure how far a matrix is from
orthonormality. -/
def Mat3.frobSq (m : Mat3) : ℚ :=
  m.a00 ^ 2 + m.a01 ^ 2 + m.a02 ^ 2 + m.a10 ^ 2 + m.a11 ^ 2 + m.a12 ^ 2 +
    m.a20 ^ 2 + m.a21 ^ 2 + m.a22 ^ 2

/-- Exact orthonormality: `R * Rᵀ = I`. -/
def Mat3.isOrthonormal (m : Mat3) : Prop := m.mul m.transpose = Mat3.identity

/-!
## CoordinateTransform (`coordinate_transform.cpp`)

State of `CoordinateTransform` (header `coordinate_transform.hpp`): camera
matrix, distortion coefficients, pose rotation/translation, and the two
readiness flags.  `cv::undistortPoints` is an external OpenCV routine; the
member functions below take it as an explicit function parameter
`undistort : Pt2 → Pt2` standing for `cv::undistortPoints` applied with the
held `camera_matrix_`/`dist_coeffs_` (the code's Step 1).
-/

structure CoordinateTransform where
  camera_matrix : Mat3
  dist_coeffs : List ℚ
  rotation : Mat3
  translation : Pt3
  has_calibration : Bool
  has_pose : Bool
deriving DecidableEq, Repr

/-- A default-constructed `CoordinateTransform`: both flags false
(`has_calibration_ = false`, `has_pose_ = false`). -/
def CoordinateTransform.init : CoordinateTransform :=
  ⟨Mat3.identity, [], Mat3.identity, ⟨0, 0, 0⟩, false, false⟩

/-- Model of `CoordinateTransform::setCalibration` (lines 6-10). -/
def CoordinateTransform.setCalibration (ct : CoordinateTransform)
    (camera_matrix : Mat3) (dist_coeffs : List ℚ) : CoordinateTransform :=
  { ct with camera_matrix := camera_matrix, dist_coeffs := dist_coeffs,
            has_calibration := true }

/-- Model of `CoordinateTransform::setCameraPose` (lines 12-16). -/
def CoordinateTransform.setCameraPose (ct : CoordinateTransform)
    (rotation : Mat3) (tr : Pt3) : CoordinateTransform :=
  { ct with rotation := rotation, translation := tr, has_pose := true }

/-- Modelled from the spec: `cv::undistortPoints` (external OpenCV) with an
empty distortion sequence.  Spec §3: "if distortion is empty, all
projection/undistortion degenerates to the identity", i.e. pure pinhole
normalization `((u - cx)/fx, (v - cy)/fy)`. -/
def pinholeNormalize (cm : Mat3) (p : Pt2) : Pt2 :=
  ⟨(p.x - cm.a02) / cm.a00, (p.y - cm.a12) / cm.a11⟩

/-- Diagnostics written to `std::cerr` by `imageToWorld` on its three
failure paths (lines 20, 49, 56). -/
inductive I2WDiag where
  | missingCalibrationOrPose
  | rayParallelToGroundPlane
  | intersectionBehindCamera
deriving DecidableEq, Repr

/-- Steps 1-3 of `imageToWorld` (lines 24-35), before normalization:
undistort the pixel, lift to the camera-frame ray `(x, y, 1)`, rotate into
the world frame (`ray_world = rotation_ * ray_camera`). -/
def CoordinateTransform.rayWorld (ct : CoordinateTransform)
    (undistort : Pt2 → Pt2) (image_point : Pt2) : Pt3 :=
  let normalized := undistort image_point
  let ray_camera : Pt3 := ⟨normalized.x, normalized.y, 1⟩
  ct.rotation.mulVec ray_camera

/-- Step 4 of `imageToWorld` (line 42): `cam_pos_world = -rotation_.t() * translation_`.
Also the body of `getCameraPosition` (line 166). -/
def CoordinateTransform.camPosWorld (ct : CoordinateTransform) : Pt3 :=
  (ct.rotation.transpose.mulVec ct.translation).neg

/-- Model of `CoordinateTransform::imageToWorld` (lines 18-68), with the diagnostic
made explicit in the return type (the C++ function writes it to `std::cerr`
and returns the sentinel `(0,0,0)`; see `imageToWorld` below for that view).

The code divides `ray_world` by its Euclidean norm (lines 38-39) before the
two guards.  Over exact arithmetic the normalization cancels out of the
returned intersection point (`t` scales by the inverse factor), and for a
nonzero ray the guard `|ray_z / ‖ray‖| < 1e-6` (line 48) is equivalent to
`10^12 * ray_z^2 < ‖ray‖^2`, and `t < 0` (line 55) has the same truth value
before and after normalization; the model therefore works with the
unnormalized ray and these square-form guards, staying inside ℚ. -/
def CoordinateTransform.imageToWorldE (ct : CoordinateTransform)
    (undistort : Pt2 → Pt2) (image_point : Pt2) (z_plane : ℚ) :
    Except I2WDiag Pt3 :=
  if !ct.has_calibration || !ct.has_pose then .error .missingCalibrationOrPose
  else
    let ray_world := ct.rayWorld undistort image_point
    let cam_pos_world := ct.camPosWorld
    if 10 ^ 12 * ray_world.z ^ 2 < ray_world.normSq then
      .error .rayParallelToGroundPlane
    else
      let t := (z_plane - cam_pos_world.z) / ray_world.z
      if t < 0 then .error .intersectionBehindCamera
      else .ok ⟨cam_pos_world.x + t * ray_world.x,
                cam_pos_world.y + t * ray_world.y,
                z_plane⟩

/-- View of `CoordinateTransform::imageToWorld` as the C++ caller sees it: every
error path collapses to the zero sentinel `cv::Point3d(0, 0, 0)`. -/
def CoordinateTransform.imageToWorld (ct : CoordinateTransform)
    (undistort : Pt2 → Pt2) (image_point : Pt2) (z_plane : ℚ) : Pt3 :=
  match ct.imageToWorldE undistort image_point z_plane with
  | .error _ => ⟨0, 0, 0⟩
  | .ok p => p

/-- The camera-frame coordinates of a world point as computed by
`worldToImage` (line 78): `camera_pt = rotation_.t() * (world_pt - translation_)`. -/
def CoordinateTransform.cameraPoint (ct : CoordinateTransform)
    (world_point : Pt3) : Pt3 :=
  ct.rotation.transpose.mulVec (world_point.sub ct.translation)

/-- Model of `CoordinateTransform::worldToImage` (lines 70-96) with the missing
calibration/pose diagnostic explicit.  The perspective divide by
`camera_pt.at<double>(2,0)` (lines 81-82) is performed unconditionally;
there is no guard on the sign or nullity of the camera-frame z.  (In the
rational idealization division by zero follows Lean's `x / 0 = 0`
convention; in C++ it produces IEEE infinities/NaNs, not a trap.) -/
def CoordinateTransform.worldToImageE (ct : CoordinateTransform)
    (world_point : Pt3) : Except Unit Pt2 :=
  if !ct.has_calibration || !ct.has_pose then .error ()
  else
    let camera_pt := ct.cameraPoint world_point
    let x := camera_pt.x / camera_pt.z
    let y := camera_pt.y / camera_pt.z
    .ok ⟨ct.camera_matrix.a00 * x + ct.camera_matrix.a02,
         ct.camera_matrix.a11 * y + ct.camera_matrix.a12⟩

/-- View of `CoordinateTransform::worldToImage` as the C++ caller sees it: the
error path collapses to the sentinel `cv::Point2f(0, 0)`. -/
def CoordinateTransform.worldToImage (ct : CoordinateTransform)
    (world_point : Pt3) : Pt2 :=
  match ct.worldToImageE world_point with
  | .error _ => ⟨0, 0⟩
  | .ok p => p

/-- Model of `CoordinateTransform::intersectRayPlane` (lines 127-159). -/
def intersectRayPlane (ray_origin ray_direction plane_normal plane_point : Pt3) :
    Option Pt3 :=
  let denominator := ray_direction.dot plane_normal
  if |denominator| < 1 / 1000000 then none
  else
    let diff := plane_point.sub ray_origin
    let t := diff.dot plane_normal / denominator
    if t < 0 then none
    else some ⟨ray_origin.x + t * ray_direction.x,
               ray_origin.y + t * ray_direction.y,
               ray_origin.z + t * ray_direction.z⟩

/-- Model of `CoordinateTransform::getCameraPosition` (lines 161-173). -/
def CoordinateTransform.getCameraPosition (ct : CoordinateTransform) : Pt3 :=
  if !ct.has_pose then ⟨0, 0, 0⟩
  else (ct.rotation.transpose.mulVec ct.translation).neg

/-!
## AprilTagDetector (`apriltag_detector.cpp`)

The apriltag C library is an external collaborator: `apriltag_detector_detect`
is represented by the list of detections it returned for the frame, and
`estimate_tag_pose` by a function parameter from the detection info the code
builds (lines 99-105: the detection, the tag size, and the four pinhole
intrinsics — nothing else) to the solver's output `(err, R, t)`.
-/

/-- The fields of `apriltag_detection_t` read by the code: id, center `c`,
the four corners `p[0..3]`, decision margin and hamming distance. -/
structure ExtDetection where
  id : ℕ
  c : Pt2
  p0 : Pt2
  p1 : Pt2
  p2 : Pt2
  p3 : Pt2
  decision_margin : ℚ
  hamming : ℤ
deriving DecidableEq, Repr

/-- Model of `apriltag_detection_info_t` as filled in by `estimatePose` (lines 99-105). -/
structure PoseInfo where
  det : ExtDetection
  tagsize : ℚ
  fx : ℚ
  fy : ℚ
  cx : ℚ
  cy : ℚ
deriving DecidableEq, Repr

/-- Output of the external `estimate_tag_pose`: the returned reprojection
error and the pose `(R, t)` written into `apriltag_pose_t`. -/
structure PoseSolution where
  err : ℚ
  R : Mat3
  t : Pt3
deriving DecidableEq, Repr

/-- Model of `AprilTagResult` (header `apriltag_detector.hpp`): `pose_valid` defaults
to `false`; `rotation`/`translation`/`position` are default-constructed
(empty) `cv::Mat`/`cv::Point3d` until `estimatePose` writes them, modelled
as `Option` with default `none`. -/
structure AprilTagResult where
  tag_id : ℕ
  center : Pt2
  corners : List Pt2
  decision_margin : ℚ
  hamming_distance : ℤ
  pose_valid : Bool := false
  rotation : Option Mat3 := none
  translation : Option Pt3 := none
  position : Option Pt3 := none
deriving DecidableEq, Repr

/-- Model of `AprilTagDetector::estimatePose` (lines 88-134): builds the info struct
from the detection, tag size, and `fx, fy, cx, cy` taken from the camera
matrix, runs the external solver, copies `pose.R`/`pose.t` into the result,
and returns `true` unconditionally (line 133).  The solver's reported error
`err` (line 109) is never inspected, and no finiteness or orthonormality
check is performed on the returned rotation. -/
def AprilTagDetector.estimatePose (estimate_tag_pose : PoseInfo → PoseSolution)
    (det : ExtDetection) (camera_matrix : Mat3) (tag_size : ℚ)
    (result : AprilTagResult) : Bool × AprilTagResult :=
  let info : PoseInfo :=
    ⟨det, tag_size, camera_matrix.a00, camera_matrix.a11,
     camera_matrix.a02, camera_matrix.a12⟩
  let pose := estimate_tag_pose info
  let result' :=
    { result with rotation := some pose.R, translation := some pose.t,
                  position := some pose.t }
  (true, result')

/-- Model of `AprilTagDetector::detect` (lines 31-86).  `camera_matrix` is `none` for
an empty `cv::Mat` (`camera_matrix.empty()`, line 75); pose estimation runs
exactly when it is non-empty.  The `dist_coeffs` argument is bound but never
read anywhere in the member function or in `estimatePose`. -/
def AprilTagDetector.detect (estimate_tag_pose : PoseInfo → PoseSolution)
    (detections : List ExtDetection) (camera_matrix : Option Mat3)
    (dist_coeffs : List ℚ) (tag_size : ℚ) : List AprilTagResult :=
  detections.map fun det =>
    let result : AprilTagResult :=
      { tag_id := det.id, center := det.c,
        corners := [det.p0, det.p1, det.p2, det.p3],
        decision_margin := det.decision_margin,
        hamming_distance := det.hamming }
    match camera_matrix with
    | some cm =>
      let er := AprilTagDetector.estimatePose estimate_tag_pose det cm tag_size result
      { er.2 with pose_valid := er.1 }
    | none => result

/-!
## VisionService lifecycle and processing loop (`vision_service.cpp`)

`start`/`stop` are modelled as pure state transformers.  The outcomes of the
external resource acquisitions attempted during `start` (camera open,
calibration file load, YOLO model load, class-names load) are inputs,
collected in `StartEnv`.
-/

structure StartEnv where
  cameraOpens : Bool
  calibrationLoads : Bool
  modelLoads : Bool
  classNamesLoad : Bool
deriving DecidableEq, Repr

/-- The `VisionService` fields the lifecycle touches. -/
structure ServiceState where
  running : Bool
  cameraOpened : Bool
  calibrationLoaded : Bool
  modelLoaded : Bool
  classNamesLoaded : Bool
  camera_index : ℤ
  target_fps : ℤ
  apriltag_size : ℚ
deriving DecidableEq, Repr

/-- Field initializers of `VisionService` (header lines 59-79):
`running_{false}`, camera closed, index 0, 30 fps, 15 mm tag. -/
def VisionService.initState : ServiceState :=
  ⟨false, false, false, false, false, 0, 30, 3 / 200⟩

/-- Model of `VisionService::initializeZenoh` (lines 172-177): not implemented,
always returns `false`. -/
def VisionService.initializeZenoh : Bool := false

/-- Model of `VisionService::start` (lines 25-78).  Already running → report failure
and change nothing (lines 26-29).  Camera open failure → report failure
(lines 35-40).  Everything after that — calibration load, YOLO model load,
class-names load, Zenoh init — only prints a warning on failure; `start`
still sets `running_` and returns `true` (lines 47-77). -/
def VisionService.start (env : StartEnv) (s : ServiceState) :
    ServiceState × Bool :=
  if s.running then (s, false)
  else
    let s1 := { s with cameraOpened := env.cameraOpens }
    if !env.cameraOpens then (s1, false)
    else
      let s2 := { s1 with calibrationLoaded := env.calibrationLoads,
                          modelLoaded := env.modelLoads,
                          classNamesLoaded := env.classNamesLoad }
      -- initializeZenoh() returns false (line 68); the failure is only warned about
      let s3 := { s2 with running := true }
      (s3, true)

/-- Model of `VisionService::stop` (lines 80-97): early return when not running;
otherwise clear the flag, join the thread, release the camera. -/
def VisionService.stop (s : ServiceState) : ServiceState :=
  if !s.running then s
  else { s with running := false, cameraOpened := false }

/-- Model of `VisionService::setFrameRate` (header line 40): stores the argument
verbatim, no validation. -/
def VisionService.setFrameRate (s : ServiceState) (fps : ℤ) : ServiceState :=
  { s with target_fps := fps }

/-- Model of `VisionService::setCameraIndex` (header line 39). -/
def VisionService.setCameraIndex (s : ServiceState) (index : ℤ) : ServiceState :=
  { s with camera_index := index }

/-- Model of `VisionService::setAprilTagSize` (header line 41). -/
def VisionService.setAprilTagSize (s : ServiceState) (size_meters : ℚ) : ServiceState :=
  { s with apriltag_size := size_meters }

/-- Model of `processingLoop` line 100: `std::chrono::milliseconds(1000 / target_fps_)`.
C++ `int` division truncates toward zero, hence `Int.tdiv`; there is no
guard against `target_fps_ = 0` (in C++ that division is undefined
behavior — the model can only record that the divisor is zero). -/
def frameDurationMs (target_fps : ℤ) : ℤ := Int.tdiv 1000 target_fps

/-- End-of-iteration pacing (lines 162-168): `sleep_time = frame_duration - elapsed`;
sleep only when `sleep_time.count() > 0`, so the slept duration is
`max (frame_duration - elapsed) 0`. -/
def iterationSleepMs (frame_duration elapsed : ℤ) : ℤ :=
  let sleep_time := frame_duration - elapsed
  if sleep_time > 0 then sleep_time else 0

/-- Wall-clock schedule of the loop's successful-frame iterations: each
iteration records a fresh `start_time` (line 103), runs its body for the
given elapsed time, then sleeps per `iterationSleepMs`.  Input: the list of
body durations; output: per iteration, its start instant and slept time. -/
def loopSchedule (frame_duration : ℤ) : ℤ → List ℤ → List (ℤ × ℤ)
  | _, [] => []
  | t, e :: es =>
    (t, iterationSleepMs frame_duration e) ::
      loopSchedule frame_duration (t + e + iterationSleepMs frame_duration e) es

/-- The modulus 2^32: the counters are `uint32_t` and wrap. -/
def u32Mod : ℕ := 4294967296

/-- The loop counters (header lines 73-79): `frame_count_`,
`total_frames_processed_`, `total_tags_detected_`, `total_objects_detected_`. -/
structure LoopMetrics where
  frame_count : ℕ
  total_frames_processed : ℕ
  total_tags_detected : ℕ
  total_objects_detected : ℕ
deriving DecidableEq, Repr

def LoopMetrics.init : LoopMetrics := ⟨0, 0, 0, 0⟩

/-- One iteration of `processingLoop` (lines 102-169), restricted to its
counter/status effects.  `none` is an empty frame read (lines 108-112):
the iteration is skipped after a 100 ms backoff — no counter changes, no
status.  `some (tags, objects)` is a successful frame with that many
detections: both frame counters increment (lines 114-115), the detection
totals accumulate (lines 126, 142), and the status summary is emitted iff
`frame_count_ % 100 == 0` (line 157).  All counters are uint32, reduced
mod 2^32 at each write. -/
def loopStep (m : LoopMetrics) (frame : Option (ℕ × ℕ)) : LoopMetrics × Bool :=
  match frame with
  | none => (m, false)
  | some (tags, objects) =>
    let fc := (m.frame_count + 1) % u32Mod
    let m' : LoopMetrics :=
      { frame_count := fc,
        total_frames_processed := (m.total_frames_processed + 1) % u32Mod,
        total_tags_detected := (m.total_tags_detected + tags) % u32Mod,
        total_objects_detected := (m.total_objects_detected + objects) % u32Mod }
    (m', fc % 100 == 0)

/-- The loop run over a trace of frame events. -/
def loopRun (m : LoopMetrics) (frames : List (Option (ℕ × ℕ))) : LoopMetrics :=
  frames.foldl (fun acc ev => (loopStep acc ev).1) m

/-- The average-fps figure printed by `publishStatus` (line 192):
`total_frames_processed_ / (frame_count_ / (float)target_fps_)`. -/
def averageFps (m : LoopMetrics) (target_fps : ℚ) : ℚ :=
  (m.total_frames_processed : ℚ) / ((m.frame_count : ℚ) / target_fps)

/-- Model of `VisionService::publishStatus` (lines 187-193): the four figures printed. -/
def publishStatusReport (m : LoopMetrics) (target_fps : ℚ) : ℕ × ℕ × ℕ × ℚ :=
  (m.total_frames_processed, m.total_tags_detected, m.total_objects_detected,
    averageFps m target_fps)

/-!
## CLI parsing (`main.cpp`)
-/

/-- The `isspace` characters skipped by `atoi`. -/
def isSpaceChar (ch : Char) : Bool :=
  ch = ' ' || ch = '\t' || ch = '\n' || ch = '\x0b' || ch = '\x0c' || ch = '\r'

def isDigitChar (ch : Char) : Bool := '0' ≤ ch && ch ≤ '9'

/-- Accumulate the value of a maximal leading run of decimal digits. -/
def digitsValue (acc : ℕ) : List Char → ℕ
  | [] => acc
  | ch :: rest =>
    if isDigitChar ch then digitsValue (10 * acc + (ch.toNat - '0'.toNat)) rest
    else acc

def skipSpaces : List Char → List Char
  | [] => []
  | ch :: rest => if isSpaceChar ch then skipSpaces rest else ch :: rest

/-- Modelled from the spec: `std::atoi` (libc, external).  Skip leading
whitespace, take an optional sign and a maximal run of decimal digits;
text with no leading digits yields 0 — spec §6: "invalid numeric text
yields default/zero values".  (Overflow is ignored.) -/
def cppAtoi (s : String) : ℤ :=
  match skipSpaces s.toList with
  | '-' :: rest => -(digitsValue 0 rest : ℤ)
  | '+' :: rest => (digitsValue 0 rest : ℤ)
  | cs => (digitsValue 0 cs : ℤ)

structure CliConfig where
  camera_index : ℤ
  fps : ℤ
  tag_size : ℚ
deriving DecidableEq, Repr

inductive CliOutcome where
  | help
  | run (config : CliConfig)
deriving DecidableEq, Repr

/-- Defaults in `main` (lines 24-26): camera 0, fps 30, tag size 0.015. -/
def defaultCliConfig : CliConfig := ⟨0, 30, 3 / 200⟩

/-- The argument loop of `main` (lines 28-46).  A value-taking flag consumes
the next argument when one exists (`i + 1 < argc`), parsed with `atoi` /
`atof`; a value-taking flag in last position matches no branch and is
ignored; `--help` prints usage and exits.  `std::atof` is an external libc
routine, passed in as a parameter. -/
def parseArgs (atof : String → ℚ) : List String → CliConfig → CliOutcome
  | [], cfg => .run cfg
  | "--camera" :: v :: rest, cfg =>
    parseArgs atof rest { cfg with camera_index := cppAtoi v }
  | "--fps" :: v :: rest, cfg =>
    parseArgs atof rest { cfg with fps := cppAtoi v }
  | "--tag-size" :: v :: rest, cfg =>
    parseArgs atof rest { cfg with tag_size := atof v }
  | "--help" :: _, _ => .help
  | _ :: rest, cfg => parseArgs atof rest cfg

/-- The parse `main` performs on `argv[1..]` starting from the defaults. -/
def mainParse (atof : String → ℚ) (args : List String) : CliOutcome :=
  parseArgs atof args defaultCliConfig

/-- Model of `main` lines 50-53: configure the service from the parsed flags. -/
def mainConfigure (cfg : CliConfig) (s : ServiceState) : ServiceState :=
  VisionService.setAprilTagSize
    (VisionService.setFrameRate
      (VisionService.setCameraIndex s cfg.camera_index) cfg.fps)
    cfg.tag_size

/-!
## Concrete values used by witnesses and counterexamples
-/

/-- A transform with unit intrinsics (fx = fy = 1, cx = cy = 0), empty
distortion, identity rotation and translation (0, 0, -2), built through the
setters so both readiness flags are true. -/
def ctSample : CoordinateTransform :=
  (CoordinateTransform.init.setCalibration Mat3.identity []).setCameraPose
    Mat3.identity ⟨0, 0, -2⟩

def zeroMat3 : Mat3 := ⟨0, 0, 0, 0, 0, 0, 0, 0, 0⟩

/-- An external pose solver returning a huge reprojection error and a
degenerate (all-zero, far from orthonormal) rotation. -/
def degenerateSolver : PoseInfo → PoseSolution :=
  fun _ => ⟨1000000, zeroMat3, ⟨0, 0, 0⟩⟩

def detSample : ExtDetection :=
  ⟨7, ⟨320, 240⟩, ⟨300, 220⟩, ⟨340, 220⟩, ⟨340, 260⟩, ⟨300, 260⟩, 50, 0⟩

def cmSample : Mat3 := ⟨600, 0, 320, 0, 600, 240, 0, 0, 1⟩

/-- The result `detect` produces for `detSample` under `degenerateSolver`
when a camera matrix is supplied. -/
def resSample : AprilTagResult :=
  { tag_id := 7, center := ⟨320, 240⟩,
    corners := [⟨300, 220⟩, ⟨340, 220⟩, ⟨340, 260⟩, ⟨300, 260⟩],
    decision_margin := 50, hamming_distance := 0,
    pose_valid := true, rotation := some zeroMat3,
    translation := some ⟨0, 0, 0⟩, position := some ⟨0, 0, 0⟩ }

def envAllGood : StartEnv := ⟨true, true, true, true⟩

def envOnlyCamera : StartEnv := ⟨true, false, false, false⟩

def runningState : ServiceState := { VisionService.initState with running := true }

def metrics99 : LoopMetrics := ⟨99, 99, 5, 2⟩

/-!
## Theorems
-/

/-- C1 (code_bug evaluation): the image→world→image round trip fails on the
code even in a fully regular configuration.  With unit intrinsics, no
distortion, identity rotation and translation (0, 0, -2), pixel (1, 0) and
plane z = 3: the cast ray is not parallel to the plane and the intersection
is in front of the camera (`imageToWorldE` returns `ok` with t = 1), yet
`worldToImage` maps the recovered world point (1, 0, 3) to (1/5, 0), far
from the original pixel (1, 0).  Cause: `imageToWorld` places the camera at
`-Rᵀ·translation` (world→camera convention, line 42) while `worldToImage`
inverts with `Rᵀ·(point - translation)` (camera→world convention, line 78);
the two agree only when `-Rᵀ·t = t`. -/
theorem roundTrip_mixed_convention_failure :
    ctSample.has_calibration = true ∧ ctSample.has_pose = true ∧
    ctSample.imageToWorldE (pinholeNormalize ctSample.camera_matrix) ⟨1, 0⟩ 3 =
      .ok ⟨1, 0, 3⟩ ∧
    ctSample.worldToImage ⟨1, 0, 3⟩ = ⟨1 / 5, 0⟩ ∧
    (⟨1 / 5, 0⟩ : Pt2) ≠ (⟨1, 0⟩ : Pt2) := by
  refine ⟨rfl, rfl, ?_, ?_, ?_⟩
  · norm_num [CoordinateTransform.imageToWorldE, CoordinateTransform.rayWorld,
      CoordinateTransform.camPosWorld, pinholeNormalize, ctSample,
      CoordinateTransform.init, CoordinateTransform.setCalibration,
      CoordinateTransform.setCameraPose, Mat3.identity, Mat3.mulVec,
      Mat3.transpose, Pt3.neg, Pt3.normSq]
  · norm_num [CoordinateTransform.worldToImage, CoordinateTransform.worldToImageE,
      CoordinateTransform.cameraPoint, ctSample, CoordinateTransform.init,
      CoordinateTransform.setCalibration, CoordinateTransform.setCameraPose,
      Mat3.identity, Mat3.mulVec, Mat3.transpose, Pt3.sub]
  · intro h
    have hx : (1 / 5 : ℚ) = 1 := congrArg Pt2.x h
    norm_num at hx

/-- C2: `intersectRayPlane` returns `none` exactly when `|direction · normal|`
is below 1e-6 or the solved parameter t is negative, and otherwise returns
`origin + t · direction`, with t = ((planePoint − origin) · normal) / (direction · normal). -/
theorem intersectRayPlane_characterization (o d n p0 : Pt3) :
    intersectRayPlane o d n p0 =
      if |d.dot n| < 1 / 1000000 ∨ (p0.sub o).dot n / d.dot n < 0 then none
      else some ⟨o.x + ((p0.sub o).dot n / d.dot n) * d.x,
                 o.y + ((p0.sub o).dot n / d.dot n) * d.y,
                 o.z + ((p0.sub o).dot n / d.dot n) * d.z⟩ := by
  unfold intersectRayPlane
  by_cases h1 : |d.dot n| < 1 / 1000000 <;>
    by_cases h2 : (p0.sub o).dot n / d.dot n < 0 <;>
      simp [h1, h2]

/-- C10: `AprilTagDetector::detect` is invariant in its `dist_coeffs`
argument: on the same detections, camera matrix, tag size and external
solver, any two distortion-coefficient lists produce identical results —
the parameter is accepted but never read, and pose estimation consumes only
the raw detection and the pinhole intrinsics fx, fy, cx, cy. -/
theorem detect_ignores_dist_coeffs (est : PoseInfo → PoseSolution)
    (dets : List ExtDetection) (camera_matrix : Option Mat3)
    (dc1 dc2 : List ℚ) (tag_size : ℚ) :
    AprilTagDetector.detect est dets camera_matrix dc1 tag_size =
      AprilTagDetector.detect est dets camera_matrix dc2 tag_size := rfl

/-- C3 (counterexample): `AprilTagDetector::estimatePose` returns `true`
unconditionally — the solver's reprojection error is discarded and no
finiteness/orthonormality check is made.  With a camera matrix supplied and
an external solver that reports a huge error and an all-zero rotation,
`detect` still marks the pose valid and stores the degenerate rotation
(`‖R·Rᵀ − I‖²_F = 3`), refuting "valid = true only if the solve converges
and yields a finite, orthonormal-within-tolerance rotation". -/
theorem estimatePose_accepts_degenerate_rotation :
    AprilTagDetector.detect degenerateSolver [detSample] (some cmSample) []
        (3 / 200) = [resSample] ∧
    resSample.pose_valid = true ∧
    resSample.rotation = some zeroMat3 ∧
    ¬ zeroMat3.isOrthonormal ∧
    ((zeroMat3.mul zeroMat3.transpose).sub Mat3.identity).frobSq = 3 := by
  refine ⟨?_, rfl, rfl, ?_, ?_⟩
  · simp [AprilTagDetector.detect, AprilTagDetector.estimatePose,
      degenerateSolver, detSample, cmSample, resSample]
  · intro h
    have h00 : (zeroMat3.mul zeroMat3.transpose).a00 = Mat3.identity.a00 :=
      congrArg Mat3.a00 h
    norm_num [Mat3.mul, Mat3.transpose, Mat3.identity, zeroMat3] at h00
  · norm_num [Mat3.mul, Mat3.transpose, Mat3.sub, Mat3.identity, Mat3.frobSq,
      zeroMat3]

/-- C3 (amended): for every invocation of `detect`, each returned result has
`pose_valid = true` exactly when a (non-empty) camera matrix was supplied —
the solver's error value and the shape of its rotation are never checked —
and `rotation`/`translation` are set exactly in that same case, remaining
unset when no camera matrix is given; the function is total (never raises). -/
theorem detect_pose_valid_iff_camera_matrix (est : PoseInfo → PoseSolution)
    (dets : List ExtDetection) (camera_matrix : Option Mat3) (dc : List ℚ)
    (tag_size : ℚ) (r : AprilTagResult)
    (hr : r ∈ AprilTagDetector.detect est dets camera_matrix dc tag_size) :
    r.pose_valid = camera_matrix.isSome ∧
    r.rotation.isSome = camera_matrix.isSome ∧
    r.translation.isSome = camera_matrix.isSome := by
  unfold AprilTagDetector.detect at hr
  rcases List.mem_map.mp hr with ⟨det, -, rfl⟩
  cases camera_matrix <;> simp [AprilTagDetector.estimatePose]

/-- Witness for C3's amended theorem at a concrete invocation. -/
theorem detect_pose_valid_iff_camera_matrix_witness :
    resSample.pose_valid = (some cmSample).isSome ∧
    resSample.rotation.isSome = (some cmSample).isSome ∧
    resSample.translation.isSome = (some cmSample).isSome :=
  detect_pose_valid_iff_camera_matrix degenerateSolver [detSample]
    (some cmSample) [] (3 / 200) resSample
    (by simp [AprilTagDetector.detect, AprilTagDetector.estimatePose,
      degenerateSolver, detSample, cmSample, resSample])

/-- C4: `imageToWorld` fails — `imageToWorldE` takes an error branch, and the
C++ function returns the zero sentinel with a diagnostic on `std::cerr`,
never raising (the model is total) — in exactly these cases: calibration or
pose missing, the world-frame ray direction parallel to the plane
(`10^12 · ray_z² < ‖ray‖²`, the exact square form of `|ray_z|/‖ray‖ < 1e-6`),
or the solved parameter `t = (z_plane − cam_z)/ray_z` negative; in every
other case the returned point's z coordinate is exactly `z_plane`. -/
theorem imageToWorld_error_cases (ct : CoordinateTransform)
    (undistort : Pt2 → Pt2) (p : Pt2) (z : ℚ) :
    ((∃ d, ct.imageToWorldE undistort p z = .error d) ↔
      (ct.has_calibration = false ∨ ct.has_pose = false ∨
        10 ^ 12 * (ct.rayWorld undistort p).z ^ 2 < (ct.rayWorld undistort p).normSq ∨
        (z - ct.camPosWorld.z) / (ct.rayWorld undistort p).z < 0)) ∧
    (∀ d, ct.imageToWorldE undistort p z = .error d →
      ct.imageToWorld undistort p z = ⟨0, 0, 0⟩) ∧
    (∀ w, ct.imageToWorldE undistort p z = .ok w →
      w.z = z ∧ ct.imageToWorld undistort p z = w) := by
  unfold CoordinateTransform.imageToWorld CoordinateTransform.imageToWorldE
  by_cases hcal : ct.has_calibration <;> by_cases hpose : ct.has_pose <;>
    by_cases hg1 : 10 ^ 12 * (ct.rayWorld undistort p).z ^ 2 <
        (ct.rayWorld undistort p).normSq <;>
      by_cases hg2 : (z - ct.camPosWorld.z) / (ct.rayWorld undistort p).z < 0 <;>
        simp [hcal, hpose, hg1, hg2]

/-- Witness for C4 at a concrete successful and a concrete failing input. -/
theorem imageToWorld_error_cases_witness :
    (Pt3.z ⟨1, 0, 3⟩ = 3 ∧
      ctSample.imageToWorld (pinholeNormalize ctSample.camera_matrix) ⟨1, 0⟩ 3 =
        ⟨1, 0, 3⟩) ∧
    CoordinateTransform.init.imageToWorld (fun q => q) ⟨0, 0⟩ 0 = ⟨0, 0, 0⟩ :=
  ⟨(imageToWorld_error_cases ctSample (pinholeNormalize ctSample.camera_matrix)
      ⟨1, 0⟩ 3).2.2 ⟨1, 0, 3⟩
      (by norm_num [CoordinateTransform.imageToWorldE,
        CoordinateTransform.rayWorld, CoordinateTransform.camPosWorld,
        pinholeNormalize, ctSample, CoordinateTransform.init,
        CoordinateTransform.setCalibration, CoordinateTransform.setCameraPose,
        Mat3.identity, Mat3.mulVec, Mat3.transpose, Pt3.neg, Pt3.normSq]),
   (imageToWorld_error_cases CoordinateTransform.init (fun q => q) ⟨0, 0⟩ 0).2.1
      .missingCalibrationOrPose
      (by simp [CoordinateTransform.imageToWorldE, CoordinateTransform.init])⟩

/-- C5: the service lifecycle.  `start()` on a running service changes
nothing and reports failure; `stop()` on a stopped service is a no-op; and
for a stopped service, failure to open the camera is the only condition
under which `start()` fails — whatever the outcomes of the calibration
load, the model load, the class-names load and the (always failing) Zenoh
initialization, `start()` succeeds and transitions to Running whenever the
camera opens. -/
theorem service_lifecycle (env : StartEnv) (s : ServiceState) :
    (s.running = true → VisionService.start env s = (s, false)) ∧
    (s.running = false → VisionService.stop s = s) ∧
    (s.running = false →
      ((VisionService.start env s).2 = false ↔ env.cameraOpens = false)) ∧
    (s.running = false → env.cameraOpens = true →
      (VisionService.start env s).2 = true ∧
      (VisionService.start env s).1.running = true) := by
  refine ⟨fun h => ?_, fun h => ?_, fun h => ?_, fun h hc => ?_⟩
  · simp [VisionService.start, h]
  · simp [VisionService.stop, h]
  · cases hc : env.cameraOpens <;> simp [VisionService.start, h, hc]
  · simp [VisionService.start, h, hc]

/-- Witness for C5: a running service rejects `start`; a stopped service
ignores `stop`; with the camera opening and every soft resource failing,
`start` still succeeds and runs. -/
theorem service_lifecycle_witness :
    VisionService.start envAllGood runningState = (runningState, false) ∧
    VisionService.stop VisionService.initState = VisionService.initState ∧
    (VisionService.start envOnlyCamera VisionService.initState).2 = true ∧
    (VisionService.start envOnlyCamera VisionService.initState).1.running = true :=
  ⟨(service_lifecycle envAllGood runningState).1 rfl,
   (service_lifecycle envAllGood VisionService.initState).2.1 rfl,
   ((service_lifecycle envOnlyCamera VisionService.initState).2.2.2 rfl rfl).1,
   ((service_lifecycle envOnlyCamera VisionService.initState).2.2.2 rfl rfl).2⟩

/-- C6: loop pacing.  Over any trace of body durations, the slept time of
each successful-frame iteration is `max (targetPeriod − elapsed) 0`,
computed from that iteration's own fresh wall-clock stamp only — the list
of sleeps is a pointwise function of the list of elapsed times, independent
of the start instant and of every other iteration, so no deficit is carried
over.  Moreover, when the body meets or exceeds the period, the next
iteration starts immediately at `t + elapsed` with zero sleep. -/
theorem processing_loop_pacing (fd t : ℤ) (es : List ℤ) :
    ((loopSchedule fd t es).map Prod.snd = es.map fun e => max (fd - e) 0) ∧
    (∀ e rest, fd ≤ e →
      loopSchedule fd t (e :: rest) = (t, 0) :: loopSchedule fd (t + e) rest) := by
  have hsleep : ∀ d e : ℤ, iterationSleepMs d e = max (d - e) 0 := by
    intro d e
    simp only [iterationSleepMs]
    split <;> omega
  constructor
  · induction es generalizing t with
    | nil => simp [loopSchedule]
    | cons e rest ih => simp [loopSchedule, hsleep, ih]
  · intro e rest he
    have h0 : iterationSleepMs fd e = 0 := by
      rw [hsleep]; omega
    simp [loopSchedule, h0]

/-- Witness for C6: at a 33 ms period, a 50 ms body sleeps 0 and the next
iteration starts immediately at t = 50. -/
theorem processing_loop_pacing_witness :
    loopSchedule 33 0 [50] = (0, 0) :: loopSchedule 33 (0 + 50) [] :=
  (processing_loop_pacing 33 0 [50]).2 50 [] (by decide)

/-- C8: with calibration and pose set, `worldToImage` never takes an error
or sentinel branch: for every world point — including points whose
camera-frame z is zero or negative (behind the camera) — it returns the
pixel obtained by the unguarded perspective divide by the camera-frame z
followed by the intrinsics. -/
theorem worldToImage_unguarded_divide (ct : CoordinateTransform) (w : Pt3)
    (hcal : ct.has_calibration = true) (hpose : ct.has_pose = true) :
    ct.worldToImageE w =
      .ok ⟨ct.camera_matrix.a00 * ((ct.cameraPoint w).x / (ct.cameraPoint w).z) +
            ct.camera_matrix.a02,
           ct.camera_matrix.a11 * ((ct.cameraPoint w).y / (ct.cameraPoint w).z) +
            ct.camera_matrix.a12⟩ := by
  simp [CoordinateTransform.worldToImageE, hcal, hpose]

/-- Witness for C8: a point 5 units behind `ctSample`'s camera (camera-frame
z = −5) still yields an `ok` pixel, namely (0, 0) by the divide formula. -/
theorem worldToImage_unguarded_divide_witness :
    (ctSample.cameraPoint ⟨0, 0, -7⟩).z < 0 ∧
    ctSample.worldToImageE ⟨0, 0, -7⟩ = .ok ⟨0, 0⟩ :=
  ⟨by norm_num [CoordinateTransform.cameraPoint, ctSample,
      CoordinateTransform.init, CoordinateTransform.setCalibration,
      CoordinateTransform.setCameraPose, Mat3.identity, Mat3.mulVec,
      Mat3.transpose, Pt3.sub],
   (worldToImage_unguarded_divide ctSample ⟨0, 0, -7⟩ rfl rfl).trans
     (by norm_num [CoordinateTransform.cameraPoint, ctSample,
        CoordinateTransform.init, CoordinateTransform.setCalibration,
        CoordinateTransform.setCameraPose, Mat3.identity, Mat3.mulVec,
        Mat3.transpose, Pt3.sub])⟩

/-- Helper: the stored 32-bit frame counter after n consecutive successful
frames equals `(initial + n) mod 2^32`. -/
theorem loopRun_replicate_frame_count (n : ℕ) :
    ∀ m : LoopMetrics, m.frame_count < u32Mod →
      (loopRun m (List.replicate n (some (0, 0)))).frame_count =
        (m.frame_count + n) % u32Mod := by
  induction n with
  | zero => intro m hm; simp [loopRun, Nat.mod_eq_of_lt hm]
  | succ n ih =>
    intro m hm
    have hstep :
        loopRun m (List.replicate (n + 1) (some (0, 0))) =
          loopRun (loopStep m (some (0, 0))).1 (List.replicate n (some (0, 0))) := by
      rw [List.replicate_succ]
      rfl
    rw [hstep, ih _ (by simp [loopStep]; exact Nat.mod_lt _ (by norm_num [u32Mod]))]
    simp only [loopStep]
    rw [Nat.mod_add_mod]
    congr 1
    omega

/-- Helper: a nonzero natural is divisible by 100 iff it is a positive
multiple of 100. -/
theorem pos_multiple_of_100_iff (a : ℕ) (ha : a ≠ 0) :
    a % 100 = 0 ↔ ∃ k, 0 < k ∧ a = 100 * k := by
  constructor
  · intro hmod
    exact ⟨a / 100, by omega, by omega⟩
  · rintro ⟨k, hk, rfl⟩
    omega

/-- C7 (counterexample): the `uint32_t` frame counter wraps.  Starting from
the initial metrics and running 2^32 − 1 successful frames, the next
successful frame wraps the counter to 0 and — since `0 % 100 == 0` — the
status summary is emitted although the frame counter is 0, not a positive
multiple of 100. -/
theorem status_emitted_at_counter_wrap :
    (loopStep
        (loopRun LoopMetrics.init (List.replicate 4294967295 (some (0, 0))))
        (some (0, 0))).2 = true ∧
    (loopStep
        (loopRun LoopMetrics.init (List.replicate 4294967295 (some (0, 0))))
        (some (0, 0))).1.frame_count = 0 := by
  have hfc :
      (loopRun LoopMetrics.init
        (List.replicate 4294967295 (some (0, 0)))).frame_count = 4294967295 := by
    rw [loopRun_replicate_frame_count 4294967295 LoopMetrics.init
      (by norm_num [LoopMetrics.init, u32Mod])]
    norm_num [LoopMetrics.init, u32Mod]
  have hstep : ∀ m : LoopMetrics, m.frame_count = 4294967295 →
      (loopStep m (some (0, 0))).2 = true ∧
      (loopStep m (some (0, 0))).1.frame_count = 0 := by
    intro m hm
    constructor
    · simp only [loopStep]
      rw [hm]
      norm_num [u32Mod]
    · simp only [loopStep]
      rw [hm]
      norm_num [u32Mod]
  exact hstep _ hfc

/-- C7 (amended): per iteration, the status summary is emitted exactly when
the frame read succeeded and the stored 32-bit frame counter is ≡ 0 mod 100
after its increment — a positive multiple of 100 whenever the counter has
not just wrapped to 0 (which first happens after 2^32 successful frames) —
and the summary reports the cumulative frames, tags and objects processed
together with the average fps `framesProcessed / (frameIndex / targetFps)`. -/
theorem status_emission_characterization (m : LoopMetrics)
    (ev : Option (ℕ × ℕ)) (fps : ℚ) :
    ((loopStep m ev).2 = true ↔
      ev.isSome = true ∧ (loopStep m ev).1.frame_count % 100 = 0) ∧
    ((loopStep m ev).1.frame_count ≠ 0 →
      ((loopStep m ev).2 = true ↔
        ev.isSome = true ∧
          ∃ k, 0 < k ∧ (loopStep m ev).1.frame_count = 100 * k)) ∧
    publishStatusReport m fps =
      (m.total_frames_processed, m.total_tags_detected,
        m.total_objects_detected,
        (m.total_frames_processed : ℚ) / ((m.frame_count : ℚ) / fps)) := by
  refine ⟨?_, ?_, rfl⟩
  · cases ev with
    | none => simp [loopStep]
    | some te =>
      obtain ⟨tags, objects⟩ := te
      simp [loopStep]
  · intro h0
    cases ev with
    | none => simp [loopStep]
    | some te =>
      obtain ⟨tags, objects⟩ := te
      simp only [loopStep, Option.isSome_some, true_and, beq_iff_eq] at h0 ⊢
      exact pos_multiple_of_100_iff _ h0

/-- Witness for C7's amended theorem: at stored counter 99 a successful
frame emits the status with the counter at 100 = 100·1, and the report
carries the counters and the fps formula. -/
theorem status_emission_characterization_witness :
    (loopStep metrics99 (some (1, 1))).2 = true ∧
    (∃ k, 0 < k ∧ (loopStep metrics99 (some (1, 1))).1.frame_count = 100 * k) ∧
    publishStatusReport metrics99 30 =
      (99, 5, 2, (99 : ℚ) / ((99 : ℚ) / 30)) := by
  have h := status_emission_characterization metrics99 (some (1, 1)) 30
  have h0 : (loopStep metrics99 (some (1, 1))).1.frame_count ≠ 0 := by decide
  have hemit : (loopStep metrics99 (some (1, 1))).2 = true := by decide
  exact ⟨hemit, ((h.2.1 h0).mp hemit).2, h.2.2⟩

/-- C9: the frame period is the unguarded C++ `int` division
`1000 / target_fps_`.  For every target fps above 1000 it is 0 ms, and then
no nonnegative iteration ever sleeps (no pacing at all).  `setFrameRate`
stores any integer without validation — 0 included — and `atoi` on the
non-numeric text "abc" yields 0, so `--fps abc` leaves the service with
`target_fps = 0`, making the divisor of the period computation zero
(division by zero, undefined behavior in C++; the rational model records
the zero divisor). -/
theorem frame_period_division_hazards :
    (∀ fps : ℤ, 1000 < fps → frameDurationMs fps = 0) ∧
    (∀ fps e : ℤ, 1000 < fps → 0 ≤ e →
      iterationSleepMs (frameDurationMs fps) e = 0) ∧
    (∀ s : ServiceState, ∀ fps : ℤ,
      (VisionService.setFrameRate s fps).target_fps = fps) ∧
    cppAtoi "abc" = 0 ∧
    (∀ atof : String → ℚ,
      mainParse atof ["--fps", "abc"] = .run ⟨0, 0, 3 / 200⟩) := by
  have hdur : ∀ fps : ℤ, 1000 < fps → frameDurationMs fps = 0 := by
    intro fps h
    obtain ⟨k, rfl⟩ := Int.eq_ofNat_of_zero_le (by omega : (0 : ℤ) ≤ fps)
    unfold frameDurationMs
    have h1000 : (1000 : ℤ) = ((1000 : ℕ) : ℤ) := rfl
    rw [h1000, ← Int.ofNat_tdiv]
    have hk : (1000 : ℕ) / k = 0 := Nat.div_eq_of_lt (by omega)
    simp [hk]
  refine ⟨hdur, ?_, ?_, ?_, ?_⟩
  · intro fps e h he
    rw [hdur fps h]
    simp only [iterationSleepMs]
    split <;> omega
  · intro s fps
    rfl
  · rfl
  · intro atof
    rfl

/-- Witness for C9: fps 1001 gives a 0 ms period and a 0 ms sleep for a
7 ms body; `setFrameRate` accepts 0; `--fps abc` parses to fps 0. -/
theorem frame_period_division_hazards_witness :
    frameDurationMs 1001 = 0 ∧
    iterationSleepMs (frameDurationMs 1001) 7 = 0 ∧
    (VisionService.setFrameRate VisionService.initState 0).target_fps = 0 ∧
    cppAtoi "abc" = 0 ∧
    mainParse (fun _ => 0) ["--fps", "abc"] = .run ⟨0, 0, 3 / 200⟩ :=
  ⟨frame_period_division_hazards.1 1001 (by decide),
   frame_period_division_hazards.2.1 1001 7 (by decide) (by decide),
   frame_period_division_hazards.2.2.1 VisionService.initState 0,
   frame_period_division_hazards.2.2.2.1,
   frame_period_division_hazards.2.2.2.2 (fun _ => 0)⟩
